import Mathlib

/-!
Verification of `src/PythonApplication1/bot_streamer.py` against its
natural-language specification.

The program is a Flask web app backed by a Telegram client.  Its mutable
state is a global dict `stream_cache` mapping a message id to
`{"url": str, "expires_at": datetime}` (line 48), and the on-disk cache
directory `stream_cache/` holding files named `{message_id}.mp3`.

The embedding below models:
  * `stream_cache` as an association list `Cache` keyed by message id;
  * the cache directory as an association list `Disk` from message id to
    the byte content of `stream_cache/{message_id}.mp3` (every file the
    program creates or reads is named this way, line 132);
  * timestamps (`datetime.utcnow()`) as natural numbers counting seconds;
  * bytes as natural numbers.

Each definition carries the line numbers of the source code it embeds.
-/

namespace BotStreamer

/-- One value of `stream_cache` (line 48): `{"url": str, "expires_at": datetime}`. -/
structure StreamData where
  url : String
  expires_at : Nat
  deriving DecidableEq

/-- The global `stream_cache` dict (line 48), keyed by message id. -/
abbrev Cache := List (Nat × StreamData)

/-- The `stream_cache/` directory: message id ↦ bytes of `stream_cache/{id}.mp3`. -/
abbrev Disk := List (Nat × List Nat)

/-- Dictionary lookup (`message_id in stream_cache`, `stream_cache[message_id]`,
and `os.path.exists` on the disk model). -/
def lookup {α : Type} (m : Nat) : List (Nat × α) → Option α
  | [] => none
  | (k, v) :: rest => if k = m then some v else lookup m rest

/-- `timedelta(hours=2)` (line 80), in seconds. -/
def ttlSeconds : Nat := 7200

/-- The caching step of `handle_link` (lines 73–81): if `message_id` is a key of
`stream_cache` — with no check of its `expires_at` — the stored entry is reused
as-is; only otherwise is a fresh entry with
`expires_at = datetime.utcnow() + timedelta(hours=2)` inserted.  Returns the
updated cache and the `StreamData` whose url and expiry are sent to the user. -/
def handle_link (cache : Cache) (webhook_url : String) (now : Nat)
    (message_id : Nat) : Cache × StreamData :=
  match lookup message_id cache with
  | some sd => (cache, sd)
  | none =>
    let sd : StreamData :=
      { url := webhook_url ++ "/stream/" ++ toString message_id
        expires_at := now + ttlSeconds }
    ((message_id, sd) :: cache, sd)

/-- The body of an HTTP response: either a plain text message or the byte
sequence of a streamed file. -/
inductive Body where
  | text (s : String)
  | fileBytes (bs : List Nat)
  deriving DecidableEq

/-- An HTTP response as the code builds it.  `contentRange` and `acceptRanges`
record the `Content-Range` and `Accept-Ranges` headers: no line of the program
ever sets either, so every constructor below leaves them `none`.
`fetchStarted` records whether handling this request spawned a download thread
(`Thread(target=fetch_file).start()`, lines 173–174), i.e. whether it caused a
backing-store retrieval to begin. -/
structure StreamResult where
  status : Nat
  contentType : Option String
  contentRange : Option String
  acceptRanges : Option String
  body : Body
  fetchStarted : Bool
  deriving DecidableEq

/-- `64 * 1024`, the chunk size of both the read loop (line 120) and
`client.iter_download` (line 163). -/
def chunkSize : Nat := 64 * 1024

/-- The chunking both loops perform: repeatedly take up to `chunkSize` bytes
until the input is exhausted (`f.read(64 * 1024)` until empty, lines 119–123;
`iter_download(..., chunk_size=64 * 1024)`, line 163). -/
def readChunks : List Nat → List (List Nat)
  | [] => []
  | b :: rest => ((b :: rest).take chunkSize) :: readChunks ((b :: rest).drop chunkSize)
termination_by l => l.length
decreasing_by
  simp only [List.length_drop, List.length_cons, chunkSize]
  omega

/-- `stream_local_file` (lines 116–124): read the file at `file_path` in
64 KiB chunks and emit them as the response body, with
`content_type='audio/mpeg'` and Flask's default status 200.  No header other
than the content type is set; the Range header of the request is never read. -/
def stream_local_file (content : List Nat) : StreamResult :=
  { status := 200
    contentType := some "audio/mpeg"
    contentRange := none
    acceptRanges := none
    body := .fileBytes (readChunks content).flatten
    fetchStarted := false }

/-- The 410 response of line 142: `Response("Link scaduto. Richiedi un nuovo link.", status=410)`. -/
def gone_response : StreamResult :=
  { status := 410
    contentType := none
    contentRange := none
    acceptRanges := none
    body := .text "Link scaduto. Richiedi un nuovo link."
    fetchStarted := false }

/-- The `GET /stream/{message_id}` handler `stream_file` (lines 127–181):
1. if `stream_cache/{message_id}.mp3` exists on disk, stream it via
   `stream_local_file` (lines 135–137) — before any TTL check;
2. else, if `message_id not in stream_cache` or its `expires_at` is in the
   past, answer 410 (lines 140–142);
3. else spawn a `fetch_file` thread and immediately answer 200
   `"Streaming started..."` (lines 173–175). -/
def stream_file (disk : Disk) (cache : Cache) (now : Nat) (message_id : Nat) :
    StreamResult :=
  match lookup message_id disk with
  | some content => stream_local_file content
  | none =>
    match lookup message_id cache with
    | none => gone_response
    | some sd =>
      if sd.expires_at < now then gone_response
      else
        { status := 200
          contentType := none
          contentRange := none
          acceptRanges := none
          body := .text "Streaming started..."
          fetchStarted := true }

/-- A `GET /stream/{message_id}` request carrying an optional `Range` header.
The Flask handler never reads `request.headers`, so the response is computed
by `stream_file` alone and the header is ignored. -/
def serve (disk : Disk) (cache : Cache) (now : Nat) (message_id : Nat)
    (rangeHeader : Option String) : StreamResult :=
  stream_file disk cache now message_id

/-- What the backing store returns for a message id: either a document with a
declared MIME type and byte content (`message.media.document`, line 157), or
media that is not a `MessageMediaDocument` (line 153). -/
inductive Media where
  | document (mime_type : String) (content : List Nat)
  | notDocument
  deriving DecidableEq

/-- How a `fetch_file` thread (lines 148–170) ends.  Its return value (a plain
string on each early-exit path) is discarded by `Thread`; no state records it. -/
inductive FetchOutcome where
  | notValidDocument
  | notMp3
  | downloaded
  deriving DecidableEq

/-- The download thread `fetch_file` (lines 148–170), at the granularity of its
final disk state: a non-document (line 153) or a document whose
`doc.mime_type != 'audio/mpeg'` (line 158) makes it return before opening the
file — the disk is untouched; otherwise every chunk of the content is written
to `stream_cache/{message_id}.mp3` — the final name, with no temporary file
(lines 162–164). -/
def fetch_file (disk : Disk) (message_id : Nat) (media : Media) :
    Disk × FetchOutcome :=
  match media with
  | .notDocument => (disk, .notValidDocument)
  | .document mime content =>
    if mime ≠ "audio/mpeg" then (disk, .notMp3)
    else ((message_id, content) :: disk, .downloaded)

/-- The disk as observable in the middle of a download: `fetch_file` opens
`stream_cache/{message_id}.mp3` itself with `open(file_path, 'wb')` (line 162)
and appends one 64 KiB chunk per loop iteration (lines 163–164), so after `k`
iterations the file exists at its final name holding the first `k` chunks of
the content. -/
def midDownloadDisk (disk : Disk) (message_id : Nat) (content : List Nat)
    (k : Nat) : Disk :=
  (message_id, ((readChunks content).take k).flatten) :: disk

/-- The whole-system state relevant to retrieval counting: the disk, the
cache, and how many backing-store retrievals have been started
(`client.get_messages` / `client.iter_download` issued by some
`fetch_file` thread). -/
structure SysState where
  disk : Disk
  cache : Cache
  retrieveCount : Nat
  deriving DecidableEq

/-- One HTTP request handled by `stream_file`.  The handler spawns a new
`fetch_file` thread — hence a new backing-store retrieval — whenever its
response has `fetchStarted` (lines 173–174); it modifies neither the disk nor
the cache itself (all writes happen later, inside the spawned thread). -/
def handle_request (s : SysState) (now message_id : Nat) :
    SysState × StreamResult :=
  let r := stream_file s.disk s.cache now message_id
  ({ s with retrieveCount := s.retrieveCount + (if r.fetchStarted then 1 else 0) }, r)

/-- `n` requests for the same message id arriving while no spawned thread has
written anything yet (each `fetch_file` thread starts the Telegram client and
downloads for seconds; the HTTP response is sent immediately, line 175). -/
def handle_requests (s : SysState) (now message_id : Nat) : Nat → SysState
  | 0 => s
  | n + 1 => handle_requests (handle_request s now message_id).1 now message_id n

/-- Removal of the key `mid` from an association list (`os.remove(file_path)`
on the disk model, `del stream_cache[message_id]` on the cache). -/
def removeKey {α : Type} (l : List (Nat × α)) (mid : Nat) : List (Nat × α) :=
  l.filter fun p => decide (p.1 ≠ mid)

/-- One cycle of `cleanup_old_files` (lines 186–198), iterating over the
directory listing (given as the message ids of the `.mp3` files present, in
listing order).  For each file whose id is in `stream_cache` with
`expires_at < now`, `os.remove` the file and `del` the cache entry
(lines 191–196).  `failing` holds the ids whose `os.remove` raises; the
`try`/`except` of lines 186 and 197 wraps the whole `for` loop, so the first
failure abandons the remaining listing for this cycle.  The `Bool` of the
result reports whether the cycle ended in the `except` branch. -/
def cleanup_pass (failing : List Nat) (now : Nat) :
    List Nat → Disk → Cache → Disk × Cache × Bool
  | [], disk, cache => (disk, cache, false)
  | mid :: rest, disk, cache =>
    match lookup mid cache with
    | some sd =>
      if sd.expires_at < now then
        if mid ∈ failing then (disk, cache, true)
        else cleanup_pass failing now rest (removeKey disk mid) (removeKey cache mid)
      else cleanup_pass failing now rest disk cache
    | none => cleanup_pass failing now rest disk cache

/-- One cycle of `cleanup_old_files` with the listing taken from the disk
itself (`os.listdir(CACHE_DIR)`, line 188). -/
def cleanup_cycle (failing : List Nat) (now : Nat) (disk : Disk)
    (cache : Cache) : Disk × Cache × Bool :=
  cleanup_pass failing now (disk.map Prod.fst) disk cache

/-! ### Concrete states used in witnesses and counterexamples -/

/-- A fresh system state: nothing on disk, one live cache entry for id 5
(expiring at time 100), no retrieval started yet. -/
def s0 : SysState :=
  { disk := []
    cache := [(5, { url := "u", expires_at := 100 })]
    retrieveCount := 0 }

/-- A 100-byte file content: bytes 0, …, 99. -/
def content100 : List Nat := List.range 100

/-- A disk holding the fully downloaded artifact of message 5. -/
def readyDisk : Disk := [(5, content100)]

/-- A cache entry for message 5 that is live until time 1000. -/
def liveCache : Cache := [(5, { url := "u", expires_at := 1000 })]

/-- A cache entry that expired at time 0. -/
def sdExpired : StreamData := { url := "u", expires_at := 0 }

/-! ### Helper lemmas -/

/-- Reassembling the chunks of the read loop yields the file content. -/
theorem readChunks_flatten (bs : List Nat) : (readChunks bs).flatten = bs := by
  match bs with
  | [] => simp [readChunks]
  | b :: rest =>
    rw [readChunks]
    simp only [List.flatten_cons]
    rw [readChunks_flatten ((b :: rest).drop chunkSize)]
    exact List.take_append_drop chunkSize (b :: rest)
termination_by bs.length
decreasing_by
  simp only [List.length_drop, List.length_cons, chunkSize]
  omega

/-- The first chunk written by the download loop is the first `chunkSize`
bytes of the content. -/
theorem readChunks_take_one (b : Nat) (rest : List Nat) :
    ((readChunks (b :: rest)).take 1).flatten = (b :: rest).take chunkSize := by
  rw [readChunks]
  simp

/-- Removing one key leaves every other key's binding unchanged. -/
theorem lookup_removeKey_ne {α : Type} (l : List (Nat × α)) (m k : Nat)
    (h : k ≠ m) : lookup k (removeKey l m) = lookup k l := by
  induction l with
  | nil => rfl
  | cons p rest ih =>
    obtain ⟨k', v⟩ := p
    by_cases hk : k' = m
    · subst hk
      have h1 : removeKey ((k', v) :: rest) k' = removeKey rest k' := by
        simp [removeKey]
      have h2 : lookup k ((k', v) :: rest) = lookup k rest := by
        simp only [lookup]
        exact if_neg fun hh => h hh.symm
      rw [h1, ih, h2]
    · have h1 : removeKey ((k', v) :: rest) m = (k', v) :: removeKey rest m := by
        simp [removeKey, hk]
      rw [h1]
      simp only [lookup]
      by_cases hkk : k' = k
      · simp [hkk]
      · rw [if_neg hkk, if_neg hkk, ih]

/-- When the artifact file for `mid` is on disk, the handler takes the cached
branch of line 135 and streams it, whatever the cache and the clock say. -/
theorem stream_file_cached (disk : Disk) (cache : Cache) (now mid : Nat)
    (content : List Nat) (h : lookup mid disk = some content) :
    stream_file disk cache now mid = stream_local_file content := by
  unfold stream_file
  rw [h]

/-- When the artifact file for `mid` is absent and a live cache entry exists,
the handler spawns a fetch thread and answers 200 "Streaming started...". -/
theorem stream_file_pending (disk : Disk) (cache : Cache) (now mid : Nat)
    (sd : StreamData) (hfile : lookup mid disk = none)
    (hentry : lookup mid cache = some sd) (hlive : ¬ sd.expires_at < now) :
    stream_file disk cache now mid =
      { status := 200
        contentType := none
        contentRange := none
        acceptRanges := none
        body := .text "Streaming started..."
        fetchStarted := true } := by
  unfold stream_file
  rw [hfile, hentry]
  simp [hlive]

/-- The body a streamed local file delivers is exactly the file content. -/
theorem stream_local_file_body (content : List Nat) :
    (stream_local_file content).body = .fileBytes content := by
  simp [stream_local_file, readChunks_flatten]

/-- After the download thread's first loop iteration the file at
`stream_cache/{mid}.mp3` holds the first `chunkSize` bytes of the content. -/
theorem midDownloadDisk_one (disk : Disk) (mid : Nat) (b : Nat) (rest : List Nat) :
    lookup mid (midDownloadDisk disk mid (b :: rest) 1) =
      some ((b :: rest).take chunkSize) := by
  unfold midDownloadDisk
  rw [readChunks_take_one]
  simp [lookup]

/-! ### Claim theorems -/

/-- C3, counterexample: message 5's entry expired at time 10, the clock reads
100, yet its artifact file is still on disk — the request is answered 200 with
the file bytes, not 410: the on-disk check of line 135 runs before the TTL
check of line 140, so on-disk presence bypasses expiry. -/
theorem expired_but_on_disk_served_200 :
    (10 : Nat) < 100 ∧
    (stream_file [(5, [1, 2, 3])] [(5, { url := "u", expires_at := 10 })] 100 5).status = 200 ∧
    (stream_file [(5, [1, 2, 3])] [(5, { url := "u", expires_at := 10 })] 100 5).status ≠ 410 := by
  refine ⟨by decide, ?_, by decide⟩
  rw [stream_file_cached _ _ _ _ [1, 2, 3] (by decide)]
  rfl

/-- C3, amended: a GET for a token whose entry's `expires_at` lies in the past
returns 410 only when the artifact file is absent from disk; whenever the file
exists, it is served with status 200 regardless of expiry — on-disk presence,
not TTL, is the authoritative gate (lines 134–142 check the disk first). -/
theorem disk_presence_bypasses_ttl (disk : Disk) (cache : Cache)
    (now mid : Nat) (content : List Nat) (sd : StreamData)
    (hfile : lookup mid disk = some content)
    (hentry : lookup mid cache = some sd)
    (hexpired : sd.expires_at < now) :
    (stream_file disk cache now mid).status = 200 ∧
    (stream_file disk cache now mid).body = .fileBytes content := by
  rw [stream_file_cached disk cache now mid content hfile]
  exact ⟨rfl, stream_local_file_body content⟩

/-- Witness for `disk_presence_bypasses_ttl` at a concrete expired entry whose
file is still on disk. -/
theorem disk_presence_bypasses_ttl_witness :
    lookup 5 ([(5, [1, 2, 3])] : Disk) = some [1, 2, 3] ∧
    lookup 5 ([(5, { url := "u", expires_at := 10 })] : Cache) =
      some { url := "u", expires_at := 10 } ∧
    (StreamData.mk "u" 10).expires_at < 100 ∧
    (stream_file [(5, [1, 2, 3])] [(5, { url := "u", expires_at := 10 })] 100 5).status = 200 ∧
    (stream_file [(5, [1, 2, 3])] [(5, { url := "u", expires_at := 10 })] 100 5).body =
      .fileBytes [1, 2, 3] := by
  have h := disk_presence_bypasses_ttl [(5, [1, 2, 3])]
    [(5, { url := "u", expires_at := 10 })] 100 5 [1, 2, 3]
    { url := "u", expires_at := 10 } (by decide) (by decide) (by decide)
  exact ⟨by decide, by decide, by decide, h.1, h.2⟩

/-- C6, counterexample: message 3 was minted at time 0 (expiry 7200).  A second
`handle_link` at time 999999 — long after expiry — returns the stale entry
unchanged and creates no fresh entry: line 74 tests only `message_id in
stream_cache`, never `expires_at`. -/
theorem mint_after_expiry_returns_stale_entry :
    (handle_link [(3, { url := "W/stream/3", expires_at := 7200 })] "W" 999999 3).1 =
      [(3, { url := "W/stream/3", expires_at := 7200 })] ∧
    (handle_link [(3, { url := "W/stream/3", expires_at := 7200 })] "W" 999999 3).2.expires_at
      = 7200 ∧
    (7200 : Nat) < 999999 ∧
    (handle_link [(3, { url := "W/stream/3", expires_at := 7200 })] "W" 999999 3).2.expires_at
      ≠ 999999 + ttlSeconds := by decide

/-- C6, amended: `mint` reuses an existing entry whether or not it has
expired — calling it twice before expiry does return the same token and one
entry, but a call after expiry also returns the stale entry with its old
`expires_at` instead of creating a replacement; a fresh entry with
`expires_at = now + ttl` is created only when no entry for the reference
exists at all. -/
theorem handle_link_cache_behavior (cache : Cache) (w : String) (now mid : Nat) :
    (∀ sd, lookup mid cache = some sd → handle_link cache w now mid = (cache, sd)) ∧
    (lookup mid cache = none →
      handle_link cache w now mid =
        ((mid, { url := w ++ "/stream/" ++ toString mid
                 expires_at := now + ttlSeconds }) :: cache,
         { url := w ++ "/stream/" ++ toString mid
           expires_at := now + ttlSeconds })) := by
  constructor
  · intro sd h
    unfold handle_link
    rw [h]
  · intro h
    unfold handle_link
    rw [h]

/-- Witness for `handle_link_cache_behavior`: both branches at concrete
inputs — reuse of an existing (even expired) entry, and creation when the
cache has no entry. -/
theorem handle_link_cache_behavior_witness :
    lookup 3 ([(3, sdExpired)] : Cache) = some sdExpired ∧
    handle_link [(3, sdExpired)] "W" 9999 3 = ([(3, sdExpired)], sdExpired) ∧
    lookup 4 ([] : Cache) = none ∧
    handle_link [] "W" 10 4 =
      ([(4, { url := "W/stream/4", expires_at := 10 + ttlSeconds })],
       { url := "W/stream/4", expires_at := 10 + ttlSeconds }) := by
  refine ⟨by decide, ?_, by decide, ?_⟩
  · exact (handle_link_cache_behavior [(3, sdExpired)] "W" 9999 3).1 sdExpired (by decide)
  · have h := (handle_link_cache_behavior [] "W" 10 4).2 (by decide)
    rw [h]
    rfl

/-- C9: a GET `/stream/{message_id}` that finds no artifact file on disk but an
unexpired cache entry answers immediately with status 200 and the fixed text
body "Streaming started..." — no media bytes — while the download runs in a
thread spawned just before the response is returned (lines 173–175). -/
theorem pending_request_immediate_200 (disk : Disk) (cache : Cache)
    (now mid : Nat) (sd : StreamData)
    (hfile : lookup mid disk = none)
    (hentry : lookup mid cache = some sd)
    (hlive : ¬ sd.expires_at < now) :
    stream_file disk cache now mid =
      { status := 200
        contentType := none
        contentRange := none
        acceptRanges := none
        body := .text "Streaming started..."
        fetchStarted := true } :=
  stream_file_pending disk cache now mid sd hfile hentry hlive

/-- Witness for `pending_request_immediate_200` at a concrete pending state. -/
theorem pending_request_immediate_200_witness :
    lookup 6 ([] : Disk) = none ∧
    lookup 6 ([(6, { url := "u", expires_at := 50 })] : Cache) =
      some { url := "u", expires_at := 50 } ∧
    ¬ (StreamData.mk "u" 50).expires_at < 7 ∧
    stream_file [] [(6, { url := "u", expires_at := 50 })] 7 6 =
      { status := 200
        contentType := none
        contentRange := none
        acceptRanges := none
        body := .text "Streaming started..."
        fetchStarted := true } :=
  ⟨by decide, by decide, by decide,
   pending_request_immediate_200 [] [(6, { url := "u", expires_at := 50 })] 7 6
     { url := "u", expires_at := 50 } (by decide) (by decide) (by decide)⟩

/-- C1, counterexample: from the fresh state `s0` (live entry for token 5,
nothing on disk), two requests for token 5 arriving before the first request's
download thread has written the file each spawn their own fetch thread: two
backing-store retrievals are started for one token between its creation and
its terminal state. -/
theorem two_requests_two_retrievals :
    (handle_request s0 0 5).2.fetchStarted = true ∧
    (handle_request (handle_request s0 0 5).1 0 5).2.fetchStarted = true ∧
    (handle_requests s0 0 5 2).retrieveCount = 2 := by decide

/-- C1, amended: there is no single-flight coordination at all — every request
that finds the artifact file absent and the cache entry unexpired spawns its
own fetch thread, so `n` such requests arriving before the first thread
writes the file start `n` backing-store retrievals; no caller suspends. -/
theorem no_single_flight (s : SysState) (now mid : Nat) (sd : StreamData)
    (n : Nat)
    (hfile : lookup mid s.disk = none)
    (hentry : lookup mid s.cache = some sd)
    (hlive : ¬ sd.expires_at < now) :
    (handle_requests s now mid n).retrieveCount = s.retrieveCount + n := by
  induction n generalizing s with
  | zero => rfl
  | succ n ih =>
    have hr : (handle_request s now mid).1 =
        { s with retrieveCount := s.retrieveCount + 1 } := by
      unfold handle_request
      rw [stream_file_pending s.disk s.cache now mid sd hfile hentry hlive]
      rfl
    show (handle_requests (handle_request s now mid).1 now mid n).retrieveCount = _
    rw [hr, ih { s with retrieveCount := s.retrieveCount + 1 } hfile hentry]
    show s.retrieveCount + 1 + n = s.retrieveCount + (n + 1)
    omega

/-- Witness for `no_single_flight`: 50 concurrent first-requests from `s0`
start 50 retrievals. -/
theorem no_single_flight_witness :
    lookup 5 s0.disk = none ∧
    lookup 5 s0.cache = some { url := "u", expires_at := 100 } ∧
    ¬ (StreamData.mk "u" 100).expires_at < 0 ∧
    (handle_requests s0 0 5 50).retrieveCount = s0.retrieveCount + 50 :=
  ⟨by decide, by decide, by decide,
   no_single_flight s0 0 5 { url := "u", expires_at := 100 } 50
     (by decide) (by decide) (by decide)⟩

/-- C2, counterexample: while `fetch_file` downloads a 65537-byte document for
message 9, after its first loop iteration the file exists at the final path
`stream_cache/9.mp3` holding only 65536 bytes — neither completely absent nor
valid for the declared size — and a concurrent GET is served exactly those
partial bytes with status 200: the write of lines 162–164 goes directly to the
final name, with no temporary file and no atomic publish. -/
theorem partial_artifact_observable :
    lookup 9 (midDownloadDisk [] 9 (List.replicate 65537 0) 1) =
      some (List.replicate 65536 0) ∧
    (List.replicate 65536 (0 : Nat)).length ≠ (List.replicate 65537 (0 : Nat)).length ∧
    (stream_file (midDownloadDisk [] 9 (List.replicate 65537 0) 1) [] 0 9).status = 200 ∧
    (stream_file (midDownloadDisk [] 9 (List.replicate 65537 0) 1) [] 0 9).body =
      .fileBytes (List.replicate 65536 0) := by
  have hco : List.replicate 65537 (0 : Nat) = 0 :: List.replicate 65536 0 := by
    rw [show (65537 : Nat) = 65536 + 1 from rfl, List.replicate_succ]
  have htake : (0 :: List.replicate 65536 (0 : Nat)).take chunkSize =
      List.replicate 65536 0 := by
    rw [← hco, List.take_replicate]
    norm_num [chunkSize]
  have hl : lookup 9 (midDownloadDisk [] 9 (List.replicate 65537 (0 : Nat)) 1) =
      some (List.replicate 65536 0) := by
    rw [hco, midDownloadDisk_one, htake]
  have hs : stream_file (midDownloadDisk [] 9 (List.replicate 65537 (0 : Nat)) 1) [] 0 9 =
      stream_local_file (List.replicate 65536 0) :=
    stream_file_cached _ _ _ _ _ hl
  refine ⟨hl, by simp only [List.length_replicate]; decide, ?_, ?_⟩
  · rw [hs]
    rfl
  · rw [hs]
    exact stream_local_file_body _

/-- C2, amended: the fetch writes chunk by chunk directly to the final
artifact name; for any content longer than one 64 KiB chunk there is a moment
(after the first chunk is written) at which the file exists at the artifact
path holding strictly fewer bytes than the declared size, and a concurrent
request is served those partial bytes with status 200. -/
theorem in_place_write_partial_visible (disk : Disk) (cache : Cache)
    (now mid : Nat) (content : List Nat) (h : chunkSize < content.length) :
    ∃ bs, lookup mid (midDownloadDisk disk mid content 1) = some bs ∧
      bs.length < content.length ∧
      (stream_file (midDownloadDisk disk mid content 1) cache now mid).status = 200 ∧
      (stream_file (midDownloadDisk disk mid content 1) cache now mid).body =
        .fileBytes bs := by
  obtain ⟨b, rest, rfl⟩ : ∃ b rest, content = b :: rest := by
    cases content with
    | nil => exact absurd h (by simp)
    | cons b rest => exact ⟨b, rest, rfl⟩
  have hl : lookup mid (midDownloadDisk disk mid (b :: rest) 1) =
      some ((b :: rest).take chunkSize) := midDownloadDisk_one disk mid b rest
  have hs : stream_file (midDownloadDisk disk mid (b :: rest) 1) cache now mid =
      stream_local_file ((b :: rest).take chunkSize) :=
    stream_file_cached _ _ _ _ _ hl
  refine ⟨(b :: rest).take chunkSize, hl, ?_, ?_, ?_⟩
  · rw [List.length_take]
    omega
  · rw [hs]
    rfl
  · rw [hs]
    exact stream_local_file_body _

/-- Witness for `in_place_write_partial_visible` on a 65537-byte content. -/
theorem in_place_write_partial_visible_witness :
    chunkSize < (List.replicate 65537 (0 : Nat)).length ∧
    ∃ bs, lookup 8 (midDownloadDisk [] 8 (List.replicate 65537 (0 : Nat)) 1) = some bs ∧
      bs.length < (List.replicate 65537 (0 : Nat)).length ∧
      (stream_file (midDownloadDisk [] 8 (List.replicate 65537 (0 : Nat)) 1) [] 0 8).status = 200 ∧
      (stream_file (midDownloadDisk [] 8 (List.replicate 65537 (0 : Nat)) 1) [] 0 8).body =
        .fileBytes bs :=
  ⟨by rw [List.length_replicate]; decide,
   in_place_write_partial_visible [] [] 0 8 (List.replicate 65537 0)
     (by rw [List.length_replicate]; decide)⟩

/-- C4, counterexample: a GET for the Ready 100-byte artifact of token 5 with
header `Range: bytes=10-19` is answered 200 — not 206 — with all 100 bytes,
no `Content-Range` and no `Accept-Ranges` header: the handler never reads the
Range header and always streams the whole file. -/
theorem range_request_gets_200_full_body :
    content100.length = 100 ∧
    (serve readyDisk liveCache 0 5 (some "bytes=10-19")).status ≠ 206 ∧
    (serve readyDisk liveCache 0 5 (some "bytes=10-19")).status = 200 ∧
    (serve readyDisk liveCache 0 5 (some "bytes=10-19")).contentRange = none ∧
    (serve readyDisk liveCache 0 5 (some "bytes=10-19")).acceptRanges = none ∧
    (serve readyDisk liveCache 0 5 (some "bytes=10-19")).body = .fileBytes content100 := by
  have hs : serve readyDisk liveCache 0 5 (some "bytes=10-19") =
      stream_local_file content100 :=
    stream_file_cached readyDisk liveCache 0 5 content100 (by rw [readyDisk, lookup]; simp)
  rw [hs]
  exact ⟨by simp [content100], by decide, rfl, rfl, rfl, stream_local_file_body content100⟩

/-- C4, amended: the handler ignores the Range header entirely — with or
without one, a request whose artifact file is on disk is answered 200 with the
complete file content, `Content-Type: audio/mpeg`, and neither `Content-Range`
nor `Accept-Ranges`; no 206 partial response exists. -/
theorem serve_ignores_range_header (disk : Disk) (cache : Cache)
    (now mid : Nat) (rangeHeader : Option String) (content : List Nat)
    (h : lookup mid disk = some content) :
    serve disk cache now mid rangeHeader = serve disk cache now mid none ∧
    (serve disk cache now mid rangeHeader).status = 200 ∧
    (serve disk cache now mid rangeHeader).contentType = some "audio/mpeg" ∧
    (serve disk cache now mid rangeHeader).contentRange = none ∧
    (serve disk cache now mid rangeHeader).acceptRanges = none ∧
    (serve disk cache now mid rangeHeader).body = .fileBytes content := by
  have hs : serve disk cache now mid rangeHeader = stream_local_file content :=
    stream_file_cached disk cache now mid content h
  have hs0 : serve disk cache now mid none = stream_local_file content :=
    stream_file_cached disk cache now mid content h
  refine ⟨hs.trans hs0.symm, ?_, ?_, ?_, ?_, ?_⟩
  · rw [hs]
    rfl
  · rw [hs]
    rfl
  · rw [hs]
    rfl
  · rw [hs]
    rfl
  · rw [hs]
    exact stream_local_file_body content

/-- Witness for `serve_ignores_range_header` on the concrete ready artifact. -/
theorem serve_ignores_range_header_witness :
    lookup 5 readyDisk = some content100 ∧
    serve readyDisk liveCache 0 5 (some "bytes=0-9") = serve readyDisk liveCache 0 5 none ∧
    (serve readyDisk liveCache 0 5 (some "bytes=0-9")).status = 200 ∧
    (serve readyDisk liveCache 0 5 (some "bytes=0-9")).body = .fileBytes content100 := by
  have h : lookup 5 readyDisk = some content100 := by rw [readyDisk, lookup]; simp
  have hall := serve_ignores_range_header readyDisk liveCache 0 5
    (some "bytes=0-9") content100 h
  exact ⟨h, hall.1, hall.2.1, hall.2.2.2.2.2⟩

/-- C5, counterexample: a GET for the Ready 100-byte artifact of token 5 with
the unsatisfiable header `Range: bytes=200-` is answered 200 with all 100
bytes, not rejected with 416. -/
theorem out_of_bounds_range_gets_200 :
    content100.length = 100 ∧
    (serve readyDisk liveCache 0 5 (some "bytes=200-")).status ≠ 416 ∧
    (serve readyDisk liveCache 0 5 (some "bytes=200-")).status = 200 ∧
    (serve readyDisk liveCache 0 5 (some "bytes=200-")).body = .fileBytes content100 := by
  have hs : serve readyDisk liveCache 0 5 (some "bytes=200-") =
      stream_local_file content100 :=
    stream_file_cached readyDisk liveCache 0 5 content100 (by rw [readyDisk, lookup]; simp)
  rw [hs]
  exact ⟨by simp [content100], by decide, rfl, stream_local_file_body content100⟩

/-- C5, amended: no range is ever rejected — the endpoint's only statuses are
200 (file streamed, or fetch started) and 410 (expired/unknown); in
particular, 416 is never returned, whatever Range header the request carries. -/
theorem serve_never_416 (disk : Disk) (cache : Cache) (now mid : Nat)
    (rangeHeader : Option String) :
    (serve disk cache now mid rangeHeader).status = 200 ∨
    (serve disk cache now mid rangeHeader).status = 410 := by
  unfold serve stream_file
  split
  · exact Or.inl rfl
  · split
    · exact Or.inr rfl
    · split
      · exact Or.inr rfl
      · exact Or.inl rfl

/-- C7, counterexample: token 7 has a live cache entry and no file on disk; the
backing store holds a `video/mp4` document for it.  The fetch thread aborts
without writing anything (`fetch_file` leaves the disk empty and returns the
discarded string for "File is not an MP3"), but the client's HTTP request was
already answered 200 "Streaming started..." — never 415. -/
theorem wrong_media_client_gets_200_not_415 :
    (stream_file [] [(7, { url := "u", expires_at := 50 })] 0 7).status = 200 ∧
    (stream_file [] [(7, { url := "u", expires_at := 50 })] 0 7).status ≠ 415 ∧
    (stream_file [] [(7, { url := "u", expires_at := 50 })] 0 7).body =
      .text "Streaming started..." ∧
    fetch_file [] 7 (.document "video/mp4" [1, 2, 3]) = ([], .notMp3) := by decide

/-- C7, amended: when the backing object's MIME type is not audio/mpeg the
spawned fetch thread returns without writing any data (the disk is unchanged),
but no Failed state is recorded anywhere and the client's request for the
token was already answered 200 "Streaming started..."; the client never
receives 415. -/
theorem unsupported_media_behavior (disk : Disk) (cache : Cache)
    (now mid : Nat) (sd : StreamData) (mime : String) (content : List Nat)
    (hfile : lookup mid disk = none)
    (hentry : lookup mid cache = some sd)
    (hlive : ¬ sd.expires_at < now)
    (hmime : mime ≠ "audio/mpeg") :
    (stream_file disk cache now mid).status = 200 ∧
    (stream_file disk cache now mid).fetchStarted = true ∧
    fetch_file disk mid (.document mime content) = (disk, .notMp3) := by
  rw [stream_file_pending disk cache now mid sd hfile hentry hlive]
  refine ⟨rfl, rfl, ?_⟩
  unfold fetch_file
  simp [hmime]

/-- Witness for `unsupported_media_behavior` at a concrete wrong-type fetch. -/
theorem unsupported_media_behavior_witness :
    lookup 7 ([] : Disk) = none ∧
    lookup 7 ([(7, { url := "u", expires_at := 50 })] : Cache) =
      some { url := "u", expires_at := 50 } ∧
    ¬ (StreamData.mk "u" 50).expires_at < 0 ∧
    ("video/mp4" : String) ≠ "audio/mpeg" ∧
    (stream_file [] [(7, { url := "u", expires_at := 50 })] 0 7).status = 200 ∧
    fetch_file [] 7 (.document "video/mp4" [4, 5, 6]) = ([], .notMp3) := by
  have h := unsupported_media_behavior [] [(7, { url := "u", expires_at := 50 })]
    0 7 { url := "u", expires_at := 50 } "video/mp4" [4, 5, 6]
    (by decide) (by decide) (by decide) (by decide)
  exact ⟨by decide, by decide, by decide, by decide, h.1, h.2.2⟩

/-- C8, counterexample: message ids 1 and 2 are both on disk and both expired
(the listing order is [1, 2]); deleting 1's file raises.  The whole cycle
aborts in the `except` branch: 2's file is still on disk and 2's cache entry
survives, although its deletion would have succeeded (2 is not a failing id
and its entry is expired). -/
theorem cleanup_failure_aborts_cycle :
    ¬ (2 ∈ ([1] : List Nat)) ∧
    sdExpired.expires_at < 10 ∧
    cleanup_cycle [1] 10 [(1, [0]), (2, [0])] [(1, sdExpired), (2, sdExpired)] =
      ([(1, [0]), (2, [0])], [(1, sdExpired), (2, sdExpired)], true) := by decide

/-- C8, amended: an error deleting one expired entry's artifact aborts the
sweep of every remaining entry in that cycle — the `try`/`except` of
`cleanup_old_files` wraps the whole `for` loop, so as soon as `os.remove`
raises for the entry at the head of the remaining listing, the cycle ends with
the disk and the cache exactly as they were, whatever expired entries the rest
of the listing still holds; they wait for the next cycle. -/
theorem cleanup_failure_skips_rest (failing : List Nat) (now : Nat)
    (rest : List Nat) (m : Nat) (disk : Disk) (cache : Cache) (sd : StreamData)
    (hentry : lookup m cache = some sd) (hexp : sd.expires_at < now)
    (hfail : m ∈ failing) :
    cleanup_pass failing now (m :: rest) disk cache = (disk, cache, true) := by
  unfold cleanup_pass
  rw [hentry]
  simp [hexp, hfail]

/-- Witness for `cleanup_failure_skips_rest`: with listing [1, 2] and the
removal of 1 failing, the pass returns disk and cache untouched. -/
theorem cleanup_failure_skips_rest_witness :
    lookup 1 ([(1, sdExpired), (2, sdExpired)] : Cache) = some sdExpired ∧
    sdExpired.expires_at < 10 ∧
    1 ∈ ([1] : List Nat) ∧
    cleanup_pass [1] 10 [1, 2] [(1, [0]), (2, [0])] [(1, sdExpired), (2, sdExpired)] =
      ([(1, [0]), (2, [0])], [(1, sdExpired), (2, sdExpired)], true) :=
  ⟨by decide, by decide, by decide,
   cleanup_failure_skips_rest [1] 10 [2] 1 [(1, [0]), (2, [0])]
     [(1, sdExpired), (2, sdExpired)] sdExpired (by decide) (by decide) (by decide)⟩

/-- C10: in any sweeper pass, a cached `.mp3` file is deleted only when its
message id is still a key of `stream_cache` with an expired `expires_at`: a
file whose id has no cache entry is left on disk (and never gains an entry),
and a file whose entry is unexpired keeps both its bytes and its entry. -/
theorem cleanup_only_deletes_expired_cached (failing : List Nat) (now : Nat)
    (listing : List Nat) (disk : Disk) (cache : Cache) (mid : Nat) :
    (lookup mid cache = none →
       lookup mid (cleanup_pass failing now listing disk cache).1 = lookup mid disk ∧
       lookup mid (cleanup_pass failing now listing disk cache).2.1 = none) ∧
    (∀ sd, lookup mid cache = some sd → ¬ sd.expires_at < now →
       lookup mid (cleanup_pass failing now listing disk cache).1 = lookup mid disk ∧
       lookup mid (cleanup_pass failing now listing disk cache).2.1 = some sd) := by
  induction listing generalizing disk cache with
  | nil => exact ⟨fun h => ⟨rfl, h⟩, fun sd h _ => ⟨rfl, h⟩⟩
  | cons m rest ih =>
    rcases hm : lookup m cache with _ | sd'
    · have hstep : cleanup_pass failing now (m :: rest) disk cache =
          cleanup_pass failing now rest disk cache := by
        simp only [cleanup_pass]
        rw [hm]
      rw [hstep]
      exact ih disk cache
    · by_cases hexp : sd'.expires_at < now
      · by_cases hfail : m ∈ failing
        · have hstep : cleanup_pass failing now (m :: rest) disk cache =
              (disk, cache, true) := by
            simp only [cleanup_pass]
            rw [hm]
            simp [hexp, hfail]
          rw [hstep]
          exact ⟨fun h => ⟨rfl, h⟩, fun sd h _ => ⟨rfl, h⟩⟩
        · have hstep : cleanup_pass failing now (m :: rest) disk cache =
              cleanup_pass failing now rest (removeKey disk m) (removeKey cache m) := by
            simp only [cleanup_pass]
            rw [hm]
            simp only [if_pos hexp, if_neg hfail]
          rw [hstep]
          constructor
          · intro hnone
            have hne : mid ≠ m := by
              intro he
              rw [he, hm] at hnone
              exact Option.noConfusion hnone
            have hd := lookup_removeKey_ne disk m mid hne
            have hc := lookup_removeKey_ne cache m mid hne
            have hrec := (ih (removeKey disk m) (removeKey cache m)).1
              (by rw [hc]; exact hnone)
            rw [hd] at hrec
            exact hrec
          · intro sd hsome hlive
            have hne : mid ≠ m := by
              intro he
              rw [he, hm] at hsome
              injection hsome with h2
              rw [← h2] at hlive
              exact hlive hexp
            have hd := lookup_removeKey_ne disk m mid hne
            have hc := lookup_removeKey_ne cache m mid hne
            have hrec := (ih (removeKey disk m) (removeKey cache m)).2 sd
              (by rw [hc]; exact hsome) hlive
            rw [hd] at hrec
            exact hrec
      · have hstep : cleanup_pass failing now (m :: rest) disk cache =
            cleanup_pass failing now rest disk cache := by
          simp only [cleanup_pass]
          rw [hm]
          simp only [if_neg hexp]
        rw [hstep]
        exact ih disk cache

/-- Witness for `cleanup_only_deletes_expired_cached`: in a pass where the
expired entry 4 is swept, the uncached file 8 keeps its bytes and stays
without a cache entry. -/
theorem cleanup_only_deletes_expired_cached_witness :
    lookup 8 ([(4, sdExpired)] : Cache) = none ∧
    lookup 8 (cleanup_pass [] 10 [4, 8] [(4, [9]), (8, [7])] [(4, sdExpired)]).1 =
      lookup 8 ([(4, [9]), (8, [7])] : Disk) ∧
    lookup 8 (cleanup_pass [] 10 [4, 8] [(4, [9]), (8, [7])] [(4, sdExpired)]).2.1 = none := by
  have h := (cleanup_only_deletes_expired_cached [] 10 [4, 8]
    [(4, [9]), (8, [7])] [(4, sdExpired)] 8).1 (by decide)
  exact ⟨by decide, h.1, h.2⟩

end BotStreamer
